import Mathlib

/-!
Verification development for the nznewspapers repository.

The repository has two scripts:

* `nzn-summarise.js` (src/unnamed/part_000): reads a MARC21 file of
  bibliographic records and reconciles it against the per-newspaper JSON
  record store (index build, skip/update/create classification, partial
  date specificity, place-name cleanup).
* `src/data-import/nzn-import-newspapers.js`: reads a tab-separated
  export and merges each row into the per-id JSON store, bumping a
  revision counter.

JavaScript strings are embedded as `List Char`; JS `null`/`undefined`
values flow through `Option`.  Machine integers do not occur (all
arithmetic is on small counters), so `Nat` is used directly.  Fallible
steps (the duplicate-control-number `throw`) return `Except`.
-/

/-! ## Generic association-list helpers (JS objects used as maps) -/

/-- Lookup in an association list: first binding wins.  Models reading a
property of a JS object used as a dictionary. -/
def lookupA {α β : Type} [DecidableEq α] : List (α × β) → α → Option β
  | [], _ => none
  | (k, v) :: rest, key => if k = key then some v else lookupA rest key

/-- Overwrite-or-append update of an association list.  Models assigning a
property of a JS object used as a dictionary (insertion order kept). -/
def setAssoc {α β : Type} [DecidableEq α] : List (α × β) → α → β → List (α × β)
  | [], k, v => [(k, v)]
  | (k', v') :: rest, k, v =>
      if k' = k then (k, v) :: rest else (k', v') :: setAssoc rest k v

/-! ## JS string primitives over `List Char` -/

/-- `s.startsWith(pat)`: `jsStartsWith pat s` is true when `pat` is an
initial segment of `s`. -/
def jsStartsWith : List Char → List Char → Bool
  | [], _ => true
  | _ :: _, [] => false
  | p :: ps, c :: cs => if p = c then jsStartsWith ps cs else false

/-- `s.endsWith(suffix)`. -/
def jsEndsWith (s suffix : List Char) : Bool :=
  jsStartsWith suffix.reverse s.reverse

/-- `s.includes(pat)`. -/
def jsIncludes : List Char → List Char → Bool
  | [], pat => jsStartsWith pat []
  | c :: cs, pat => jsStartsWith pat (c :: cs) || jsIncludes cs pat

/-- `s.charAt(i)` compared against a one-character string: out of range,
JS yields `""`, which compares unequal to every one-character string, so
an `Option Char` compared against `some c` is a faithful embedding. -/
def jsCharAt (s : List Char) (i : Nat) : Option Char :=
  s[i]?

/-- `s.indexOf(c)` for a one-character needle (`-1` when absent). -/
def jsIndexOfFrom (c : Char) : List Char → Nat → Option Nat
  | [], _ => none
  | a :: as, i => if a = c then some i else jsIndexOfFrom c as (i + 1)

/-- `s.indexOf(c)`: index of the first occurrence of `c`, else `-1`. -/
def jsIndexOf (s : List Char) (c : Char) : Int :=
  match jsIndexOfFrom c s 0 with
  | some i => (i : Int)
  | none => -1

/-- `s.search("N.Z")`: the pattern string is converted to a regex, where
`.` matches any character, so this finds the first index `i` with
`s[i] = 'N'` and `s[i+2] = 'Z'` (else `-1`). -/
def searchNZFrom : List Char → Nat → Option Nat
  | [], _ => none
  | c :: cs, i =>
      if c = 'N' ∧ cs[1]? = some 'Z' then some i
      else searchNZFrom cs (i + 1)

/-- `s.search("N.Z")` as an `Int` result, `-1` when not found. -/
def searchNZ (s : List Char) : Int :=
  match searchNZFrom s 0 with
  | some i => (i : Int)
  | none => -1

/-- Whitespace recognised by `String.prototype.trim` (the characters that
occur in this data). -/
def isJsSpace (c : Char) : Bool :=
  c = ' ' ∨ c = '\t' ∨ c = '\n' ∨ c = '\r'

/-- `s.trim()`. -/
def trimWS (s : List Char) : List Char :=
  ((s.dropWhile isJsSpace).reverse.dropWhile isJsSpace).reverse

/-- Lexicographic `<` on JS strings (UTF-16 code-unit order; all data here
is in the BMP so `Char` order coincides). -/
def charListLt : List Char → List Char → Bool
  | [], [] => false
  | [], _ :: _ => true
  | _ :: _, [] => false
  | a :: as, b :: bs => if a = b then charListLt as bs else decide (a < b)

/-- `name.replace(/\?/, "")`: a regex replace without the `g` flag removes
only the FIRST occurrence of `?`. -/
def removeFirstQ : List Char → List Char
  | [] => []
  | c :: cs => if c = '?' then cs else c :: removeFirstQ cs

/-- `frequency.replace(/[\.\,\?]+$/, "")`: strip one trailing run of
`.`/`,`/`?` characters. -/
def isTrailPunct (c : Char) : Bool :=
  c = '.' ∨ c = ',' ∨ c = '?'

/-- Strip the trailing punctuation run matched by `/[\.\,\?]+$/`. -/
def stripTrailPunct (s : List Char) : List Char :=
  (s.reverse.dropWhile isTrailPunct).reverse

/-! ## Partial-date model (`isNewDateMoreSpecific`, part_000 lines 183-215) -/

/-- Number of trailing unknown markers `u` of a date token. -/
def trailingU (s : List Char) : Nat :=
  (s.reverse.takeWhile (fun c => c = 'u')).length

/-- `isNewDateMoreSpecific(currentDate, newDate)` from part_000
lines 183-215, literally: the same cascade of `endsWith` tests and
equality checks, in source order. -/
def isNewDateMoreSpecific (currentDate newDate : List Char) : Bool :=
  if !(jsEndsWith currentDate "u".data) then false
  else if newDate = "9999".data ∨ newDate = "uuuu".data then false
  else if currentDate = "9999".data ∨ currentDate = "uuuu".data then true
  else if jsEndsWith currentDate "uuu".data then true
  else if jsEndsWith currentDate "uu".data then !(jsEndsWith newDate "uuu".data)
  else if jsEndsWith currentDate "u".data then !(jsEndsWith newDate "uu".data)
  else false

/-- The decision table exactly as the specification words it (C1),
evaluated in order with first match winning:
1. false if `current` does not end in an unknown marker;
2. false if `candidate` is `uuuu` or `9999`;
3. true if `current` is `uuuu` or `9999`;
4. true if `current` ends in three unknown markers;
5. if `current` ends in exactly two unknown markers, true unless
   `candidate` ends in three;
6. if `current` ends in exactly one unknown marker, true unless
   `candidate` ends in two or more. -/
def specIsMoreSpecific (current candidate : List Char) : Bool :=
  if current.getLast? ≠ some 'u' then false
  else if candidate = "uuuu".data ∨ candidate = "9999".data then false
  else if current = "uuuu".data ∨ current = "9999".data then true
  else if 3 ≤ trailingU current then true
  else if trailingU current = 2 then !(decide (3 ≤ trailingU candidate))
  else if trailingU current = 1 then !(decide (2 ≤ trailingU candidate))
  else false

/-! ## Place normalizer (`placeCleanUp`, part_000 lines 150-175) -/

/-- Modelled from the spec: `nznShared.titleCleanup` lives in
`nzn-shared.js`, which is not under src/.  Section 4.2 of the spec calls
it "generic title-casing/whitespace cleanup (an external collaborator
utility assumed stable)", so it is modelled as trimming surrounding
whitespace and title-casing the first character. -/
def titleCleanup (s : List Char) : List Char :=
  match trimWS s with
  | [] => []
  | c :: cs => c.toUpper :: cs

/-- The excluded-overseas-locations test of `placeCleanUp`
(part_000 lines 154-160). -/
def excludedPlace (name : List Char) : Bool :=
  jsIncludes name "Apia".data || jsIncludes name "Egypt".data ||
    jsIncludes name "London".data || jsIncludes name "Sydney".data

/-- `if (name.charAt(0) == "[") name = name.substring(1)` (line 162). -/
def stripBracket (name : List Char) : List Char :=
  if jsCharAt name 0 = some '[' then name.drop 1 else name

/-- First truncation inside the `N.Z` branch: cut at the first comma when
its index is `> 1` (lines 164-165). -/
def truncAtComma (name : List Char) : List Char :=
  let comma := jsIndexOf name ','
  if comma > 1 then name.take comma.toNat else name

/-- Second truncation: cut at the `N.Z` marker when its index is `> 1`
(lines 166-167). -/
def truncAtNZ (name : List Char) : List Char :=
  let nz := searchNZ name
  if nz > 1 then name.take nz.toNat else name

/-- Third truncation: cut at a `[` when its index is `> 1`
(lines 168-169). -/
def truncAtBracket (name : List Char) : List Char :=
  let sqb := jsIndexOf name '['
  if sqb > 1 then name.take sqb.toNat else name

/-- The `if (name.search("N.Z") != -1)` block (lines 163-170): the three
truncations are applied in sequence, each recomputing its cut point on the
already-truncated string. -/
def truncateNZ (name : List Char) : List Char :=
  if searchNZ name ≠ -1 then truncAtBracket (truncAtNZ (truncAtComma name)) else name

/-- `placeCleanUp(rawName)` from part_000 lines 150-175.  `!rawName` is
true for JS `null`/`""`; callers pass `none` through `Option.bind`, so the
empty-list test here covers the `""` case. -/
def placeCleanUp (rawName : List Char) : Option (List Char) :=
  if rawName = [] then none
  else if excludedPlace rawName then none
  else some (titleCleanup (removeFirstQ (truncateNZ (stripBracket rawName))))

/-! ## Data model of the record store (part_000) -/

/-- The place-code/district/region triple stored per place name
(the `placeData[pname]` entries of part_000 lines 92-97). -/
structure PlaceInfo where
  placecode : List Char
  district : List Char
  region : List Char
deriving DecidableEq, Repr

/-- A persisted newspaper record, restricted to the fields this script
reads or writes.  `idMarcControlNumber`, `frequency` and `placename` may
be absent from a stored JSON record, hence `Option`. -/
structure Newspaper where
  id : Nat
  title : List Char
  genre : List Char
  idMarcControlNumber : Option (List Char)
  isCurrent : Bool
  firstYear : List Char
  finalYear : List Char
  frequency : Option (List Char)
  placename : Option (List Char)
  placecode : List Char
  district : List Char
  region : List Char
deriving DecidableEq, Repr

/-- The payload of the duplicate-MARC-number `throw` (part_000
lines 71-87): the thrown message names the MARC number, the new record's
id, title and genre, and the previously registered record's id and
title. -/
structure DupError where
  marcNumber : List Char
  newId : Nat
  newTitle : List Char
  newGenre : List Char
  existingId : Nat
  existingTitle : List Char
deriving DecidableEq, Repr

/-- Index build over the persisted records (part_000 lines 63-98).
Walks `Object.entries(newspaperRecords)` in order; for each record with a
truthy `idMarcControlNumber`, registers it in `marcNumberToNewspaperId`
or throws on a duplicate; registers the first `placeData` entry per
placename (first write wins).  A record without a placename registers the
JS key `"undefined"`, which no later lookup of a cleaned placename can
hit, so that case is modelled as no registration. -/
def buildMarcIndexAux (records : List (Nat × Newspaper)) :
    List (Nat × Newspaper) → List (List Char × Nat) → List (List Char × PlaceInfo) →
    Except DupError (List (List Char × Nat) × List (List Char × PlaceInfo))
  | [], idx, pd => .ok (idx, pd)
  | (id, np) :: rest, idx, pd =>
      let step : Except DupError (List (List Char × Nat)) :=
        match np.idMarcControlNumber with
        | none => .ok idx
        | some m =>
            if m = [] then .ok idx
            else
              match lookupA idx m with
              | none => .ok (idx ++ [(m, id)])
              | some prev =>
                  .error { marcNumber := m, newId := id, newTitle := np.title,
                           newGenre := np.genre, existingId := prev,
                           existingTitle := ((lookupA records prev).map Newspaper.title).getD [] }
      match step with
      | .error e => .error e
      | .ok idx2 =>
          let pd2 :=
            match np.placename with
            | none => pd
            | some p =>
                match lookupA pd p with
                | some _ => pd
                | none => pd ++ [(p, ⟨np.placecode, np.district, np.region⟩)]
          buildMarcIndexAux records rest idx2 pd2

/-- Build `marcNumberToNewspaperId` and `placeData` from the persisted
records, or fail on a duplicate control number. -/
def buildMarcIndex (records : List (Nat × Newspaper)) :
    Except DupError (List (List Char × Nat) × List (List Char × PlaceInfo)) :=
  buildMarcIndexAux records records [] []

/-! ## Record parsing (the field extractions of part_000 lines 244-381) -/

/-- The content of one MARC record relevant to the reconciliation:
the leader and the flattened `(subfield code, value)` pairs of each
tagged field the script reads.  Fields 130 (uniform title) and 250
(edition) feed only verbose console logging and are omitted; `008` is
extracted once per record (the `record.match` callback), hence
`Option`. -/
structure MarcRecord where
  leader : List Char
  field008 : Option (List Char)
  subf035 : List (Char × List Char)
  subf245 : List (Char × List Char)
  subf300 : List (Char × List Char)
  subf310 : List (Char × List Char)
  subf655 : List (Char × List Char)
  subf260 : List (Char × List Char)
deriving DecidableEq, Repr

/-- `field.value.substring(0, 6)` of the 008 field (date on file). -/
def dateOnFileOf (f : List Char) : List Char := f.take 6

/-- `field.value.charAt(6)` of the 008 field (type of date). -/
def typeOfDateOf (f : List Char) : Option Char := jsCharAt f 6

/-- `field.value.substring(7, 11)` of the 008 field (date1). -/
def date1Of (f : List Char) : List Char := (f.take 11).drop 7

/-- `field.value.substring(11, 15)` of the 008 field (date2). -/
def date2Of (f : List Char) : List Char := (f.take 15).drop 11

/-- `field.value.charAt(21)` of the 008 field (continuing resource
type). -/
def contTypeOf (f : List Char) : Option Char := jsCharAt f 21

/-- 035 handling (part_000 lines 269-282): every `a` subfield starting
with `(Nz)` overwrites `marcControlNumber` with its tail and, when the
index knows that number, overwrites `newspaperId`; last writes win. -/
def extract035 (idx : List (List Char × Nat)) (pairs : List (Char × List Char)) :
    Option (List Char) × Option Nat :=
  pairs.foldl
    (fun acc pair =>
      if pair.1 = 'a' ∧ jsStartsWith "(Nz)".data pair.2 then
        let m := pair.2.drop 4
        (some m,
          match lookupA idx m with
          | some id => some id
          | none => acc.2)
      else acc)
    (none, none)

/-- The electronic/microform format flags. -/
structure FormatFlags where
  isElectronicResource : Bool
  isMicroformResource : Bool
deriving DecidableEq, Repr

/-- 245 handling (lines 289-304): `a` subfields set the title (last
wins); `h` subfields set the flags from the medium prefix.  The `medium`
variable itself is never read later and is not tracked. -/
def parse245 (pairs : List (Char × List Char)) : Option (List Char) × FormatFlags :=
  pairs.foldl
    (fun acc pair =>
      if pair.1 = 'a' then (some pair.2, acc.2)
      else if pair.1 = 'h' then
        if jsStartsWith "[electronic resource]".data pair.2 then
          (acc.1, { acc.2 with isElectronicResource := true })
        else if jsStartsWith "[microform]".data pair.2 then
          (acc.1, { acc.2 with isMicroformResource := true })
        else acc
      else acc)
    (none, ⟨false, false⟩)

/-- 300 handling (lines 327-341): substring matches on the physical
extent may set either flag.  The `physicalExtent` variable is never read
later and is not tracked. -/
def parse300 (pairs : List (Char × List Char)) (flags : FormatFlags) : FormatFlags :=
  pairs.foldl
    (fun acc pair =>
      if pair.1 = 'a' then
        if jsIncludes pair.2 "microf".data then { acc with isMicroformResource := true }
        else if jsIncludes pair.2 "online resource".data then
          { acc with isElectronicResource := true }
        else if jsIncludes pair.2 "electronic documents".data then
          { acc with isElectronicResource := true }
        else acc
      else acc)
    flags

/-- The frequencies treated as too infrequent (lines 351-356). -/
def infrequentList : List (List Char) :=
  ["Annual".data, "Semiannual".data, "Quarterly".data, "Monthly".data]

/-- One `a` subfield of field 310 overwrites both the cleaned
`frequency` (trimmed, trailing punctuation stripped) and the
`infrequent` flag (lines 348-357). -/
def freqStep (acc : Option (List Char) × Bool) (pair : Char × List Char) :
    Option (List Char) × Bool :=
  if pair.1 = 'a' then
    (some (stripTrailPunct (trimWS pair.2)),
     decide (stripTrailPunct (trimWS pair.2) ∈ infrequentList))
  else acc

/-- 310 handling (lines 344-359): each `a` subfield overwrites both the
cleaned `frequency` and the `infrequent` flag; last wins. -/
def computeFrequency (pairs : List (Char × List Char)) : Option (List Char) × Bool :=
  pairs.foldl freqStep (none, false)

/-- 655 handling (lines 362-371): `a` subfields starting with
"New Zealand newspapers" set the genre (last wins).  The result is never
read by the reconciliation (the created record hardcodes "Unknown"). -/
def computeGenre (pairs : List (Char × List Char)) : Option (List Char) :=
  pairs.foldl
    (fun acc pair =>
      if pair.1 = 'a' ∧ jsStartsWith "New Zealand newspapers".data pair.2 then some pair.2
      else acc)
    none

/-- 260 handling (lines 374-381): each `a` subfield overwrites
`placename` with its `placeCleanUp` result (last wins, possibly
`null`). -/
def computePlacename (pairs : List (Char × List Char)) : Option (List Char) :=
  pairs.foldl
    (fun acc pair => if pair.1 = 'a' then placeCleanUp pair.2 else acc)
    none

/-! ## Batch run state and the per-record reconciliation (part_000 lines 222-541) -/

/-- The mutable state of one reconciliation run: the on-disk record store
(an id-keyed map), the next fresh id, the `stats` object, the three plain
counters, the log of `writeNewspaper` calls and the log of per-id MARC
text copies. -/
structure RunState where
  store : List (Nat × Newspaper)
  nextId : Nat
  stats : List (String × Nat)
  recordCounter : Nat
  serialCounter : Nat
  newspaperCounter : Nat
  writes : List (Nat × Newspaper)
  marcWrites : List Nat
deriving DecidableEq, Repr

/-- `addStats(label)` (part_000 lines 112-118). -/
def addStats (stats : List (String × Nat)) (label : String) : List (String × Nat) :=
  match lookupA stats label with
  | some n => setAssoc stats label (n + 1)
  | none => stats ++ [(label, 1)]

/-- Read a per-category counter (0 when the label was never bumped). -/
def getStat (st : RunState) (label : String) : Nat :=
  (lookupA st.stats label).getD 0

/-- `nznShared.writeNewspaper(id, record, note)`: persist the record under
its id and log the write.  The provenance note is passed alongside the
record and never stored in it, so it is not tracked here. -/
def writeNewspaper (st : RunState) (id : Nat) (np : Newspaper) : RunState :=
  { st with store := setAssoc st.store id np, writes := st.writes ++ [(id, np)] }

/-- The field-by-field update of a matched record (part_000
lines 429-452): overwrite `firstYear`/`finalYear` when changed and more
specific, then recompute `isCurrentlyPublished` from the (possibly just
updated) `finalYear` and overwrite `isCurrent` when different.  Returns
the record plus the `updated` flag. -/
def updateExistingNewspaper (np : Newspaper) (d1 d2 : List Char) : Newspaper × Bool :=
  let p1 :=
    if np.firstYear ≠ d1 ∧ isNewDateMoreSpecific np.firstYear d1 then
      ({ np with firstYear := d1 }, true)
    else (np, false)
  let p2 :=
    if p1.1.finalYear ≠ d2 ∧ isNewDateMoreSpecific p1.1.finalYear d2 then
      ({ p1.1 with finalYear := d2 }, true)
    else p1
  let isCur := p2.1.finalYear = "9999".data
  if p2.1.isCurrent ≠ isCur then ({ p2.1 with isCurrent := isCur }, true)
  else p2

/-- The matched-record branch (part_000 lines 408-466): bump the
existing-record counter, read the stored record, apply the field update,
and persist only when something changed.  `readNewspaper` of an id the
index does not map into the store cannot happen in a run (the index is
built from the store); that case leaves the state unchanged. -/
def matchedBranch (st : RunState) (id : Nat) (d1 d2 : List Char) : RunState :=
  let st1 := { st with stats := addStats st.stats "count-existing-record" }
  match lookupA st1.store id with
  | none => st1
  | some np =>
      let p := updateExistingNewspaper np d1 d2
      if p.2 then
        writeNewspaper
          { st1 with stats := addStats st1.stats "count-existing-record-updated" } id p.1
      else st1

/-- Modelled from the spec: `nznShared.getNextNewspaperId` lives in
`nzn-shared.js`, which is not under src/.  The spec's data model only
requires a unique fresh id per created record, so it is modelled as the
run state's `nextId` counter. -/
def getNextNewspaperId (st : RunState) : Nat × RunState :=
  (st.nextId, { st with nextId := st.nextId + 1 })

/-- The create branch (part_000 lines 467-527): bump the new-record
counters, take a fresh id, build the new record (genre hardcoded to
"Unknown", `isCurrent` from the `isCurrentlyPublished` flag, place triple
from `placeData` or the literal fallback) and persist it.  Returns the
state and the new id. -/
def createBranch (pd : List (List Char × PlaceInfo)) (st : RunState)
    (ctrl : List Char) (title : Option (List Char)) (isCurrentlyPublished : Bool)
    (d1 d2 dateOnFile : List Char) (freq : Option (List Char)) (pname : List Char) :
    RunState × Nat :=
  let st1 := { st with stats := addStats st.stats "count-new-record" }
  let pr := getNextNewspaperId st1
  let newId := pr.1
  let st2 := pr.2
  let st3 :=
    if charListLt "130402".data dateOnFile then
      { st2 with stats := addStats st2.stats "count-new-record-since-last-load" }
    else st2
  let pl := lookupA pd pname
  let newRecord : Newspaper :=
    { id := newId
      title := titleCleanup (title.getD [])
      genre := "Unknown".data
      idMarcControlNumber := some ctrl
      isCurrent := isCurrentlyPublished
      firstYear := d1
      finalYear := d2
      frequency := match freq with | some f => if f ≠ [] then some f else none | none => none
      placename := some pname
      placecode := ((pl.map PlaceInfo.placecode).getD "unknown".data)
      district := ((pl.map PlaceInfo.district).getD "Unknown District".data)
      region := ((pl.map PlaceInfo.region).getD "Unknown Region".data) }
  (writeNewspaper st3 newId newRecord, newId)

/-- The body of the newspaper branch (part_000 lines 264-537, inside
`continuingResourceType == "n"`): field extraction, the skip cascade in
source order, the matched/create branches, and the final per-id MARC text
copy (written whenever both `newspaperId` and `marcControlNumber` are
truthy, also for skipped records that matched an existing id). -/
def processNewspaperRecord (idx : List (List Char × Nat)) (pd : List (List Char × PlaceInfo))
    (st : RunState) (f : List Char) (r : MarcRecord) : RunState :=
  let st0 := { st with newspaperCounter := st.newspaperCounter + 1 }
  let dateOnFile := dateOnFileOf f
  let isCurrentlyPublished := typeOfDateOf f = some 'c'
  let d1 := date1Of f
  let d2 := date2Of f
  let cn := extract035 idx r.subf035
  let marcControlNumber := cn.1
  let newspaperId0 := cn.2
  let t245 := parse245 r.subf245
  let title := t245.1
  let flags := parse300 r.subf300 t245.2
  let fr := computeFrequency r.subf310
  let frequency := fr.1
  let infrequent := fr.2
  let placename := computePlacename r.subf260
  let branch : RunState × Option Nat :=
    match marcControlNumber with
    | none =>
        ({ st0 with stats := addStats st0.stats "count-skipped-no-nz-control-number" },
         newspaperId0)
    | some ctrl =>
        if ctrl = [] then
          ({ st0 with stats := addStats st0.stats "count-skipped-no-nz-control-number" },
           newspaperId0)
        else if flags.isMicroformResource then
          ({ st0 with stats := addStats st0.stats "count-skipped-micoform" }, newspaperId0)
        else if flags.isElectronicResource then
          ({ st0 with stats := addStats st0.stats "count-skipped-electronic" }, newspaperId0)
        else if infrequent then
          ({ st0 with stats := addStats st0.stats "count-skipped-infrequent" }, newspaperId0)
        else if placename = none ∨ placename = some [] then
          ({ st0 with stats := addStats st0.stats "count-skipped-placename" }, newspaperId0)
        else
          match newspaperId0 with
          | some id => (matchedBranch st0 id d1 d2, some id)
          | none =>
              let c := createBranch pd st0 ctrl title isCurrentlyPublished d1 d2
                dateOnFile frequency (placename.getD [])
              (c.1, some c.2)
  let st3 := branch.1
  match branch.2, marcControlNumber with
  | some npId, some ctrl =>
      if ctrl ≠ [] then { st3 with marcWrites := st3.marcWrites ++ [npId] } else st3
  | _, _ => st3

/-- One step of the `reader.on("data")` callback (part_000
lines 239-541): count the record, gate on record type `a` / bibliographic
level `s`, extract the 008 field, gate on continuing resource type `n`,
then run the newspaper branch.  Without an 008 field
`continuingResourceType` stays `null` and the newspaper branch is never
entered. -/
def processMarcRecord (idx : List (List Char × Nat)) (pd : List (List Char × PlaceInfo))
    (st : RunState) (r : MarcRecord) : RunState :=
  let st1 := { st with recordCounter := st.recordCounter + 1 }
  if jsCharAt r.leader 6 = some 'a' ∧ jsCharAt r.leader 7 = some 's' then
    let st2 := { st1 with serialCounter := st1.serialCounter + 1 }
    match r.field008 with
    | none => st2
    | some f =>
        if contTypeOf f = some 'n' then processNewspaperRecord idx pd st2 f r
        else st2
  else st1

/-- A fresh run state over a given store and id seed. -/
def initialRunState (store : List (Nat × Newspaper)) (nextId : Nat) : RunState :=
  { store := store, nextId := nextId, stats := [], recordCounter := 0,
    serialCounter := 0, newspaperCounter := 0, writes := [], marcWrites := [] }

/-- One whole reconciliation run (`readMarcFile`, part_000
lines 222-541): build the index and place table from the persisted
records, then stream every MARC record through the per-record step.  The
duplicate-control-number `throw` aborts the run before any record is
processed. -/
def readMarcFile (store : List (Nat × Newspaper)) (nextId : Nat)
    (recs : List MarcRecord) : Except DupError RunState :=
  match buildMarcIndex store with
  | .error e => .error e
  | .ok p => .ok (recs.foldl (processMarcRecord p.1 p.2) (initialRunState store nextId))

/-- Unpack a run result for concrete evaluations (a run that threw is
replaced by an empty state). -/
def runOrEmpty (x : Except DupError RunState) : RunState :=
  match x with
  | .ok st => st
  | .error _ => initialRunState [] 0

/-! ## CLI mode selection (part_000 lines 33-54) -/

/-- `commandArgs[0].toLowerCase()`: JS `String.prototype.toLowerCase`
on the ASCII mode words. -/
def jsToLowerCase (s : List Char) : List Char := s.map Char.toLower

/-- Mode selection (part_000 lines 33-54).  `commandArgs[0]` on an empty
argument list is `undefined`, and `undefined.toLowerCase()` throws a
`TypeError` before the `switch` is reached, so the result is an `Except`:
the error carries the JS exception name. -/
def computeMode (commandArgs : List (List Char)) : Except String (List Char) :=
  match commandArgs[0]? with
  | none => .error "TypeError: cannot read toLowerCase of undefined"
  | some a =>
      let l := jsToLowerCase a
      if l = "report".data then .ok "report".data
      else if l = "add-new-records".data then .ok "add-new-records".data
      else if l = "update-existing-records".data then .ok "update-existing-records".data
      else if l = "update-marc-files".data then .ok "update-marc-files".data
      else .ok "report".data

/-! ## Tab-separated import (`nzn-import-newspapers.js`) -/

/-- A JSON field value as this importer can produce or read it: the
merge writes strings, the revision bump writes numbers, and a stored
file may hold booleans. -/
inductive JValue where
  | str : String → JValue
  | num : Nat → JValue
  | bool : Bool → JValue
deriving DecidableEq, Repr

/-- A stored newspaper JSON object, as an insertion-ordered map. -/
def Fields : Type := List (String × JValue)

instance : DecidableEq Fields := by
  unfold Fields
  infer_instance

/-- `key.toLowerCase().replaceAll(" ", "-")`
(nzn-import-newspapers.js line 64).  `replaceAll` with the one-character
pattern `" "` replaces every space character, i.e. it is a per-character
map. -/
def lowerKebab (key : String) : String :=
  ⟨(key.data.map Char.toLower).map (fun c => if c = ' ' then '-' else c)⟩

/-- The stored field a column of the input row writes to, if any
(the `for (var key in record)` dispatch, lines 52-68): `Id` maps to
`id`, `Current?` to `is-current`, `Placecode` to `nzn-placecode`,
`Modified At`/`Modified By` are dropped, every other column maps to its
lower-kebab-cased name. -/
def mergeTarget (key : String) : Option String :=
  if key = "Id" then some "id"
  else if key = "Current?" then some "is-current"
  else if key = "Placecode" then some "nzn-placecode"
  else if key = "Modified At" ∨ key = "Modified By" then none
  else some (lowerKebab key)

/-- One iteration of the merge loop (lines 52-68) on one
`(column, cell)` pair.  When the column is `Id` the code assigns
`newspaper.id = id` where `id = record.Id`, which is this same cell value
(row keys are unique, as keys of a JS object).  Generic columns skip
empty cells; the three mapped columns assign unconditionally. -/
def mergeStep (newspaper : Fields) (kv : String × String) : Fields :=
  if kv.1 = "Id" then setAssoc newspaper "id" (JValue.str kv.2)
  else if kv.1 = "Current?" then setAssoc newspaper "is-current" (JValue.str kv.2)
  else if kv.1 = "Placecode" then setAssoc newspaper "nzn-placecode" (JValue.str kv.2)
  else if kv.1 = "Modified At" ∨ kv.1 = "Modified By" then newspaper
  else if kv.2 ≠ "" then setAssoc newspaper (lowerKebab kv.1) (JValue.str kv.2)
  else newspaper

/-- The whole merge loop over the columns of one row, in column order. -/
def mergeRow (newspaper : Fields) (row : List (String × String)) : Fields :=
  row.foldl mergeStep newspaper

/-- The revision bump (lines 70-74): `if (newspaper.revision)
newspaper.revision += 1; else newspaper.revision = 1`.  JS truthiness:
`0`, `""`, `false` and a missing field take the else branch; `+= 1` on a
truthy string concatenates `"1"`, on `true` yields the number `2`. -/
def bumpRevision (newspaper : Fields) : Fields :=
  match lookupA newspaper "revision" with
  | some (JValue.num n) =>
      if n ≠ 0 then setAssoc newspaper "revision" (JValue.num (n + 1))
      else setAssoc newspaper "revision" (JValue.num 1)
  | some (JValue.str s) =>
      if s ≠ "" then setAssoc newspaper "revision" (JValue.str (s ++ "1"))
      else setAssoc newspaper "revision" (JValue.num 1)
  | some (JValue.bool b) =>
      if b then setAssoc newspaper "revision" (JValue.num 2)
      else setAssoc newspaper "revision" (JValue.num 1)
  | none => setAssoc newspaper "revision" (JValue.num 1)

/-- `updateNewspaperRecord(record)` (lines 36-85): read the stored JSON
for the row's id (or start from `{}` when the file does not exist), merge
the row into it, bump the revision and write it back.  The prior stored
object is passed in; the written object is returned. -/
def updateNewspaperRecord (record : List (String × String)) (prior : Option Fields) :
    Fields :=
  bumpRevision (mergeRow (prior.getD []) record)

/-- The numeric revision of a stored object (0 when absent or not a
number). -/
def revNat (f : Fields) : Nat :=
  match lookupA f "revision" with
  | some (JValue.num n) => n
  | _ => 0

/-! ## Concrete inputs for the counterexample evaluations -/

/-- A MARC leader whose record type (position 6) is `a` and bibliographic
level (position 7) is `s`: a serial. -/
def sampleLeader : List Char := "      as".data

/-- A newspaper MARC record whose 008 field has type-of-date `d` but
date2 `9999`, with a fresh `(Nz)` control number, a weekly-style
frequency, ordinary print format and a New Zealand place. -/
def rec0 : MarcRecord :=
  { leader := sampleLeader
    field008 := some "130403d19709999      n".data
    subf035 := [('a', "(Nz)80".data)]
    subf245 := [('a', "T".data)]
    subf300 := []
    subf310 := [('a', "Daily".data)]
    subf655 := []
    subf260 := [('a', "Ak".data)] }

/-- First run of `rec0` against an empty store. -/
def c6run1 : RunState := runOrEmpty (readMarcFile [] 1 [rec0])

/-- Second run of the same input against the store the first run
produced. -/
def c6run2 : RunState := runOrEmpty (readMarcFile c6run1.store 2 [rec0])


/-! ## Statement vocabulary for the claims -/

/-- JS truthiness of a possibly-missing string (`undefined`, `null` and
`""` are falsy). -/
def truthyStr : Option (List Char) → Bool
  | none => false
  | some s => !(decide (s = []))

/-- The five skip conditions of the classifier, in source order, paired
with the counter each one increments (part_000 lines 394-407). -/
def skipConditions (hasCtrl micro elec infreq hasPlace : Bool) : List (Bool × String) :=
  [(!hasCtrl, "count-skipped-no-nz-control-number"),
   (micro, "count-skipped-micoform"),
   (elec, "count-skipped-electronic"),
   (infreq, "count-skipped-infrequent"),
   (!hasPlace, "count-skipped-placename")]

/-- The five skip-counter labels, in precedence order. -/
def skipLabels : List String :=
  ["count-skipped-no-nz-control-number", "count-skipped-micoform",
   "count-skipped-electronic", "count-skipped-infrequent",
   "count-skipped-placename"]

/-- First-true-wins evaluation of an ordered condition/label list. -/
def firstTrueLabel : List (Bool × String) → Option String
  | [] => none
  | (b, l) :: rest => if b then some l else firstTrueLabel rest

/-- A generic column of the tab-separated import: any column other than
the five specially-dispatched ones. -/
def genericColumn (key : String) : Prop :=
  key ≠ "Id" ∧ key ≠ "Current?" ∧ key ≠ "Placecode" ∧
    key ≠ "Modified At" ∧ key ≠ "Modified By"

/-- A MARC record like `rec0` but with frequency `"Monthly."` (which
trims to the infrequent `"Monthly"`). -/
def recMonthly : MarcRecord :=
  { rec0 with subf310 := [('a', "Monthly.".data)] }

/-- A persisted newspaper record carrying control number `80`, a
century-masked first year and the ongoing-sentinel final year. -/
def npA : Newspaper :=
  { id := 1
    title := "T".data
    genre := "Newspaper".data
    idMarcControlNumber := some "80".data
    isCurrent := true
    firstYear := "19uu".data
    finalYear := "9999".data
    frequency := none
    placename := some "Ak".data
    placecode := "01".data
    district := "D".data
    region := "R".data }

/-! ## Helper lemmas -/

theorem charOfNatAux_toNat (n : Nat) (h : n.isValidChar) :
    (Char.ofNatAux n h).toNat = n := rfl

theorem toUpper_ne_q (c : Char) (h : c ≠ '?') : c.toUpper ≠ '?' := by
  show (let n := c.toNat; if n ≥ 97 ∧ n ≤ 122 then Char.ofNat (n - 32) else c) ≠ '?'
  show (if c.toNat ≥ 97 ∧ c.toNat ≤ 122 then Char.ofNat (c.toNat - 32) else c) ≠ '?'
  split
  · next hn =>
    obtain ⟨h1, h2⟩ := hn
    intro hq
    have hv : (c.toNat - 32).isValidChar := by
      constructor
      omega
    have hc := congrArg Char.toNat hq
    rw [show Char.ofNat (c.toNat - 32) = Char.ofNatAux (c.toNat - 32) hv by
      unfold Char.ofNat; rw [dif_pos hv]] at hc
    rw [charOfNatAux_toNat] at hc
    have : c.toNat - 32 = 63 := by simpa using hc
    omega
  · exact h

theorem jsStartsWith_replicate (k : Nat) (t : List Char) :
    jsStartsWith (List.replicate k 'u') t
      = decide (k ≤ (t.takeWhile (fun c => c = 'u')).length) := by
  induction k generalizing t with
  | zero => simp [jsStartsWith, List.replicate]
  | succ k ih =>
    cases t with
    | nil => simp [jsStartsWith, List.replicate]
    | cons c cs =>
      rw [List.replicate_succ]
      show (if 'u' = c then jsStartsWith (List.replicate k 'u') cs else false) = _
      by_cases h : c = 'u'
      · subst h
        rw [if_pos rfl, ih, List.takeWhile_cons_of_pos (by simp)]
        simp [Nat.succ_le_succ_iff]
      · rw [if_neg (fun hh => h hh.symm), List.takeWhile_cons_of_neg (by simp [h])]
        simp

theorem jsEndsWith_trailingU (s : List Char) (k : Nat) :
    jsEndsWith s (List.replicate k 'u') = decide (k ≤ trailingU s) := by
  rw [jsEndsWith, List.reverse_replicate, jsStartsWith_replicate, trailingU]

theorem trailingU_pos_mem (c : List Char) (h : 1 ≤ trailingU c) : 'u' ∈ c := by
  unfold trailingU at h
  cases hq : c.reverse.takeWhile (fun x => x = 'u') with
  | nil => rw [hq] at h; simp at h
  | cons a as =>
    have ha : a ∈ c.reverse.takeWhile (fun x => x = 'u') := by
      rw [hq]; exact List.mem_cons_self _ _
    have hu : a = 'u' := by simpa using List.mem_takeWhile_imp ha
    have hm : a ∈ c.reverse := (List.takeWhile_sublist _).mem ha
    rw [← hu]
    exact List.mem_reverse.mp hm

theorem getLast_u_iff (c : List Char) : c.getLast? = some 'u' ↔ 1 ≤ trailingU c := by
  rw [← List.head?_reverse, trailingU]
  cases hr : c.reverse with
  | nil => simp
  | cons a as =>
    by_cases h : a = 'u'
    · subst h; simp [List.takeWhile_cons_of_pos]
    · rw [List.takeWhile_cons_of_neg (by simp [h])]
      simp [h]

theorem isNewDateMoreSpecific_eq_table (c n : List Char) :
    isNewDateMoreSpecific c n = specIsMoreSpecific c n := by
  have e1 : jsEndsWith c "u".data = decide (1 ≤ trailingU c) := jsEndsWith_trailingU c 1
  have e2 : jsEndsWith c "uu".data = decide (2 ≤ trailingU c) := jsEndsWith_trailingU c 2
  have e3 : jsEndsWith c "uuu".data = decide (3 ≤ trailingU c) := jsEndsWith_trailingU c 3
  have e4 : jsEndsWith n "uu".data = decide (2 ≤ trailingU n) := jsEndsWith_trailingU n 2
  have e5 : jsEndsWith n "uuu".data = decide (3 ≤ trailingU n) := jsEndsWith_trailingU n 3
  rw [isNewDateMoreSpecific, specIsMoreSpecific, e1, e2, e3, e5]
  by_cases h1 : 1 ≤ trailingU c
  · have hlast : ¬ (c.getLast? ≠ some 'u') := by
      simp only [ne_eq, not_not]
      exact (getLast_u_iff c).mpr h1
    rw [if_neg hlast]
    simp only [decide_eq_true h1, Bool.not_true, Bool.false_eq_true, if_false]
    by_cases h9 : n = "9999".data ∨ n = "uuuu".data
    · rw [if_pos h9, if_pos (Or.symm h9)]
    · rw [if_neg h9, if_neg (fun hh => h9 (Or.symm hh))]
      by_cases hc : c = "9999".data ∨ c = "uuuu".data
      · rw [if_pos hc, if_pos (Or.symm hc)]
      · rw [if_neg hc, if_neg (fun hh => hc (Or.symm hh))]
        by_cases h3 : 3 ≤ trailingU c
        · simp [h3]
        · simp only [decide_eq_false h3, Bool.false_eq_true, if_false, if_neg h3]
          by_cases h2 : 2 ≤ trailingU c
          · have ht2 : trailingU c = 2 := by omega
            simp [h2, ht2, e4]
          · have ht1 : trailingU c = 1 := by omega
            have ht2 : ¬ trailingU c = 2 := by omega
            simp [h2, ht1, ht2, e4, h1]
  · have hlast : c.getLast? ≠ some 'u' := by
      intro hh
      exact h1 ((getLast_u_iff c).mp hh)
    rw [if_pos hlast]
    simp [h1]

theorem isNewDateMoreSpecific_no_marker (c n : List Char) (h : 'u' ∉ c) :
    isNewDateMoreSpecific c n = false := by
  rw [isNewDateMoreSpecific]
  have e1 : jsEndsWith c "u".data = decide (1 ≤ trailingU c) := jsEndsWith_trailingU c 1
  have h0 : jsEndsWith c "u".data = false := by
    rw [e1]
    simp only [decide_eq_false_iff_not]
    intro h1
    exact h (trailingU_pos_mem c h1)
  rw [h0]
  rfl

/-! ## Claim C1 -/

/-- C1: for every pair of 4-character date tokens,
`isNewDateMoreSpecific` agrees with the spec's ordered decision table
(`specIsMoreSpecific`, first match wins); in particular it returns false
whenever the current date contains no unknown marker, and it takes the
seven concrete values the spec lists. -/
theorem c1_isNewDateMoreSpecific_follows_table :
    (∀ c n : List Char, c.length = 4 → n.length = 4 →
        isNewDateMoreSpecific c n = specIsMoreSpecific c n)
    ∧ (∀ c n : List Char, c.length = 4 → n.length = 4 → 'u' ∉ c →
        isNewDateMoreSpecific c n = false)
    ∧ isNewDateMoreSpecific "9999".data "1970".data = false
    ∧ isNewDateMoreSpecific "uuuu".data "1970".data = true
    ∧ isNewDateMoreSpecific "1uuu".data "1970".data = true
    ∧ isNewDateMoreSpecific "19uu".data "197u".data = true
    ∧ isNewDateMoreSpecific "19uu".data "1uuu".data = false
    ∧ isNewDateMoreSpecific "197u".data "19uu".data = false
    ∧ isNewDateMoreSpecific "197u".data "1970".data = true := by
  refine ⟨fun c n _ _ => isNewDateMoreSpecific_eq_table c n,
    fun c n _ _ h => isNewDateMoreSpecific_no_marker c n h,
    ?_, ?_, ?_, ?_, ?_, ?_, ?_⟩ <;> decide

/-- C1 witness: the decision-table agreement and the no-marker clause
instantiated at concrete 4-character tokens. -/
theorem c1_isNewDateMoreSpecific_follows_table_witness :
    isNewDateMoreSpecific "19uu".data "197u".data
        = specIsMoreSpecific "19uu".data "197u".data
    ∧ isNewDateMoreSpecific "1970".data "197u".data = false :=
  ⟨c1_isNewDateMoreSpecific_follows_table.1 "19uu".data "197u".data
      (by decide) (by decide),
   c1_isNewDateMoreSpecific_follows_table.2.1 "1970".data "197u".data
      (by decide) (by decide) (by decide)⟩

theorem lookupA_setAssoc_self {α β : Type} [DecidableEq α]
    (m : List (α × β)) (k : α) (v : β) :
    lookupA (setAssoc m k v) k = some v := by
  induction m with
  | nil => simp [setAssoc, lookupA]
  | cons hd tl ih =>
    obtain ⟨k', v'⟩ := hd
    by_cases h : k' = k
    · subst h
      simp [setAssoc, lookupA]
    · simp only [setAssoc, if_neg h, lookupA, ih, if_neg h]

theorem lookupA_setAssoc_ne {α β : Type} [DecidableEq α]
    (m : List (α × β)) (k k' : α) (v : β) (h : k ≠ k') :
    lookupA (setAssoc m k v) k' = lookupA m k' := by
  induction m with
  | nil => simp [setAssoc, lookupA, h]
  | cons hd tl ih =>
    obtain ⟨k1, v1⟩ := hd
    by_cases h1 : k1 = k
    · subst h1
      simp [setAssoc, lookupA, h]
    · simp only [setAssoc, if_neg h1, lookupA, ih]

theorem mergeStep_frame (np : Fields) (kv : String × String) (k : String)
    (h : mergeTarget kv.1 ≠ some k) :
    lookupA (mergeStep np kv) k = lookupA np k := by
  obtain ⟨key, v⟩ := kv
  unfold mergeTarget at h
  unfold mergeStep
  by_cases h1 : key = "Id"
  · rw [if_pos h1]
    rw [if_pos h1] at h
    exact lookupA_setAssoc_ne np "id" k _ (fun hh => h (by rw [hh]))
  · rw [if_neg h1]
    rw [if_neg h1] at h
    by_cases h2 : key = "Current?"
    · rw [if_pos h2]
      rw [if_pos h2] at h
      exact lookupA_setAssoc_ne np "is-current" k _ (fun hh => h (by rw [hh]))
    · rw [if_neg h2]
      rw [if_neg h2] at h
      by_cases h3 : key = "Placecode"
      · rw [if_pos h3]
        rw [if_pos h3] at h
        exact lookupA_setAssoc_ne np "nzn-placecode" k _ (fun hh => h (by rw [hh]))
      · rw [if_neg h3]
        rw [if_neg h3] at h
        by_cases h4 : key = "Modified At" ∨ key = "Modified By"
        · rw [if_pos h4]
        · rw [if_neg h4]
          rw [if_neg h4] at h
          by_cases h5 : v ≠ ""
          · rw [if_pos h5]
            exact lookupA_setAssoc_ne np (lowerKebab key) k _ (fun hh => h (by rw [hh]))
          · rw [if_neg h5]

theorem mergeRow_frame (row : List (String × String)) (np : Fields) (k : String)
    (h : ∀ kv ∈ row, mergeTarget kv.1 ≠ some k) :
    lookupA (mergeRow np row) k = lookupA np k := by
  induction row generalizing np with
  | nil => rfl
  | cons hd tl ih =>
    show lookupA (mergeRow (mergeStep np hd) tl) k = lookupA np k
    rw [ih (mergeStep np hd) (fun kv hkv => h kv (List.mem_cons_of_mem _ hkv)),
      mergeStep_frame np hd k (h hd (List.mem_cons_self _ _))]

theorem updateNewspaperRecord_revision (record : List (String × String))
    (prior : Option Fields)
    (hrow : ∀ kv ∈ record, mergeTarget kv.1 ≠ some "revision")
    (hprior : lookupA (prior.getD []) "revision" = none ∨
      ∃ n, lookupA (prior.getD []) "revision" = some (JValue.num n)) :
    lookupA (updateNewspaperRecord record prior) "revision"
      = some (JValue.num (revNat (prior.getD []) + 1)) := by
  unfold updateNewspaperRecord
  have hm : lookupA (mergeRow (prior.getD []) record) "revision"
      = lookupA (prior.getD []) "revision" :=
    mergeRow_frame record (prior.getD []) "revision" hrow
  unfold bumpRevision
  rw [hm]
  rcases hprior with h | ⟨n, h⟩
  · rw [h]
    rw [lookupA_setAssoc_self]
    simp [revNat, h]
  · rw [h]
    by_cases hn : n = 0
    · subst hn
      simp only [ne_eq, not_true_eq_false, if_false, reduceIte]
      rw [lookupA_setAssoc_self]
      simp [revNat, h]
    · simp only [ne_eq, hn, not_false_eq_true, if_true, reduceIte]
      rw [lookupA_setAssoc_self]
      simp [revNat, h]

/-! ## Claim C9 -/

/-- C9: every write of the tab-separated import sets the stored
revision to the prior stored revision plus one (1 when there is no prior
record or no numeric revision field, since JS treats a missing or zero
revision as falsy); in particular a create writes revision 1 and the
immediately following update of the same id writes revision 2.  The
hypotheses say that no column of the row writes the `revision` field and
that the prior record's revision, when present, is numeric — both hold
for the archived export format, whose revision is tool-managed. -/
theorem c9_revision_increments_by_one :
    (∀ (record : List (String × String)) (prior : Option Fields),
        (∀ kv ∈ record, mergeTarget kv.1 ≠ some "revision") →
        (lookupA (prior.getD []) "revision" = none ∨
          ∃ n, lookupA (prior.getD []) "revision" = some (JValue.num n)) →
        lookupA (updateNewspaperRecord record prior) "revision"
          = some (JValue.num (revNat (prior.getD []) + 1)))
    ∧ (∀ record : List (String × String),
        (∀ kv ∈ record, mergeTarget kv.1 ≠ some "revision") →
        lookupA (updateNewspaperRecord record none) "revision"
            = some (JValue.num 1)
        ∧ lookupA (updateNewspaperRecord record
              (some (updateNewspaperRecord record none))) "revision"
            = some (JValue.num 2)) := by
  constructor
  · exact updateNewspaperRecord_revision
  · intro record hrow
    have h1 : lookupA (updateNewspaperRecord record none) "revision"
        = some (JValue.num 1) := by
      have := updateNewspaperRecord_revision record none hrow (Or.inl rfl)
      simpa [revNat, lookupA] using this
    refine ⟨h1, ?_⟩
    have h2 := updateNewspaperRecord_revision record
      (some (updateNewspaperRecord record none)) hrow (Or.inr ⟨1, h1⟩)
    rw [h2]
    simp [revNat, h1]

/-- C9 witness: a concrete row creates revision 1 and the following
update of the same id writes revision 2; the general rule instantiated at
a concrete prior record with revision 41. -/
theorem c9_revision_increments_by_one_witness :
    (lookupA (updateNewspaperRecord [("Id", "x1"), ("Title", "A")] none) "revision"
        = some (JValue.num 1)
      ∧ lookupA (updateNewspaperRecord [("Id", "x1"), ("Title", "A")]
            (some (updateNewspaperRecord [("Id", "x1"), ("Title", "A")] none))) "revision"
        = some (JValue.num 2))
    ∧ lookupA (updateNewspaperRecord [("Id", "x1")]
          (some [("revision", JValue.num 41)])) "revision"
        = some (JValue.num 42) := by
  constructor
  · exact c9_revision_increments_by_one.2 [("Id", "x1"), ("Title", "A")]
      (by decide)
  · have h := c9_revision_increments_by_one.1 [("Id", "x1")]
      (some [("revision", JValue.num 41)]) (by decide)
      (Or.inr ⟨41, by decide⟩)
    rw [h]
    decide

/-! ## Claim C10 -/

/-- C10: in the import's merge loop, a generic column with an empty cell
is a no-op on the stored record; the mapped columns `Current?` and
`Placecode` overwrite `is-current` and `nzn-placecode` even with an
empty cell; and a stored field that no column of the row targets is never
modified by the merge loop. -/
theorem c10_merge_empty_cells_and_frame :
    (∀ (np : Fields) (key : String), genericColumn key →
        mergeStep np (key, "") = np)
    ∧ (∀ (np : Fields) (v : String),
        lookupA (mergeStep np ("Current?", v)) "is-current" = some (JValue.str v))
    ∧ (∀ (np : Fields) (v : String),
        lookupA (mergeStep np ("Placecode", v)) "nzn-placecode" = some (JValue.str v))
    ∧ (∀ (np : Fields) (row : List (String × String)) (k : String),
        (∀ kv ∈ row, mergeTarget kv.1 ≠ some k) →
        lookupA (mergeRow np row) k = lookupA np k) := by
  refine ⟨?_, ?_, ?_, ?_⟩
  · intro np key hk
    obtain ⟨h1, h2, h3, h4, h5⟩ := hk
    unfold mergeStep
    simp [h1, h2, h3, h4, h5]
  · intro np v
    unfold mergeStep
    norm_num
    exact lookupA_setAssoc_self np "is-current" (JValue.str v)
  · intro np v
    unfold mergeStep
    norm_num
    exact lookupA_setAssoc_self np "nzn-placecode" (JValue.str v)
  · intro np row k h
    exact mergeRow_frame row np k h

/-- C10 witness: a concrete generic column with an empty cell leaves a
concrete record untouched, and a concrete row leaves a field it does not
target untouched. -/
theorem c10_merge_empty_cells_and_frame_witness :
    mergeStep [("genre", JValue.str "Newspaper")] ("Genre", "")
        = [("genre", JValue.str "Newspaper")]
    ∧ lookupA (mergeRow [("genre", JValue.str "Newspaper")]
          [("Title", "A"), ("Current?", "1"), ("Modified At", "2015")]) "genre"
        = some (JValue.str "Newspaper") := by
  constructor
  · exact c10_merge_empty_cells_and_frame.1 [("genre", JValue.str "Newspaper")]
      "Genre" ⟨by decide, by decide, by decide, by decide, by decide⟩
  · have h := c10_merge_empty_cells_and_frame.2.2.2
      [("genre", JValue.str "Newspaper")]
      [("Title", "A"), ("Current?", "1"), ("Modified At", "2015")] "genre"
      (by decide)
    rw [h]
    decide

/-! ## Claim C8 -/

/-- C8 failing-input evaluation: invoked with NO mode argument,
`commandArgs[0]` is `undefined` and `.toLowerCase()` throws a TypeError
before the mode switch runs — the mode does not default to `report` and
the run does not proceed.  A present but unrecognized argument does fall
back to `report`, as does an explicit `report` in any case. -/
theorem c8_missing_mode_argument_throws :
    computeMode [] = Except.error "TypeError: cannot read toLowerCase of undefined"
    ∧ computeMode ["gibberish".data] = Except.ok "report".data
    ∧ computeMode ["REPORT".data] = Except.ok "report".data := by
  exact ⟨rfl, rfl, rfl⟩

theorem removeFirstQ_no_q (l : List Char) (h : l.count '?' ≤ 1) :
    '?' ∉ removeFirstQ l := by
  induction l with
  | nil => simp [removeFirstQ]
  | cons c cs ih =>
    by_cases hc : c = '?'
    · subst hc
      rw [removeFirstQ, if_pos rfl]
      rw [List.count_cons_self] at h
      exact List.count_eq_zero.mp (by omega)
    · rw [removeFirstQ, if_neg hc]
      rw [List.count_cons_of_ne (Ne.symm hc)] at h
      intro hm
      rcases List.mem_cons.mp hm with hm | hm
      · exact hc hm.symm
      · exact ih h hm

theorem mem_trimWS {x : Char} {s : List Char} (h : x ∈ trimWS s) : x ∈ s := by
  unfold trimWS at h
  rw [List.mem_reverse] at h
  have h2 := (List.dropWhile_sublist isJsSpace).mem h
  rw [List.mem_reverse] at h2
  exact (List.dropWhile_sublist isJsSpace).mem h2

theorem titleCleanup_no_q (s : List Char) (h : '?' ∉ s) :
    '?' ∉ titleCleanup s := by
  unfold titleCleanup
  cases ht : trimWS s with
  | nil => simp
  | cons c cs =>
    intro hm
    rcases List.mem_cons.mp hm with hm | hm
    · have hcs : c ∈ trimWS s := by rw [ht]; exact List.mem_cons_self _ _
      have : c ≠ '?' := fun hh => h (by rw [← hh]; exact mem_trimWS hcs)
      exact toUpper_ne_q c this hm.symm
    · have hcs : '?' ∈ trimWS s := by rw [ht]; exact List.mem_cons_of_mem _ hm
      exact h (mem_trimWS hcs)

theorem stripBracket_sublist (s : List Char) : (stripBracket s).Sublist s := by
  unfold stripBracket
  split
  · exact List.drop_sublist 1 s
  · exact List.Sublist.refl s

theorem truncAtComma_sublist (s : List Char) : (truncAtComma s).Sublist s := by
  dsimp only [truncAtComma]
  split
  · exact List.take_sublist _ s
  · exact List.Sublist.refl s

theorem truncAtNZ_sublist (s : List Char) : (truncAtNZ s).Sublist s := by
  dsimp only [truncAtNZ]
  split
  · exact List.take_sublist _ s
  · exact List.Sublist.refl s

theorem truncAtBracket_sublist (s : List Char) : (truncAtBracket s).Sublist s := by
  dsimp only [truncAtBracket]
  split
  · exact List.take_sublist _ s
  · exact List.Sublist.refl s

theorem truncateNZ_sublist (s : List Char) : (truncateNZ s).Sublist s := by
  unfold truncateNZ
  split
  · exact ((truncAtBracket_sublist _).trans
      ((truncAtNZ_sublist _).trans (truncAtComma_sublist s)))
  · exact List.Sublist.refl s

/-! ## Claim C7 -/

/-- C7 counterexample: the accepted input `"Auckland??"` keeps a trailing
question mark, because `name.replace(/\?/, "")` (no `g` flag) removes
only the first `?`, not all trailing ones. -/
theorem c7_counterexample_trailing_question_mark_survives :
    placeCleanUp "Auckland??".data = some "Auckland?".data
    ∧ "Auckland?".data.getLast? = some '?' :=
  ⟨rfl, rfl⟩

/-- C7 amended: `placeCleanUp` removes only the FIRST `?` occurrence
before the final title-casing cleanup, so an accepted input carrying at
most one `?` yields a result with none, while an accepted input ending in
`??` keeps a trailing `?`. -/
theorem c7_placeCleanUp_removes_only_first_question_mark
    (raw out : List Char) (h : placeCleanUp raw = some out)
    (hq : raw.count '?' ≤ 1) : out.count '?' = 0 := by
  unfold placeCleanUp at h
  by_cases h1 : raw = []
  · rw [if_pos h1] at h
    exact absurd h (by simp)
  · rw [if_neg h1] at h
    by_cases h2 : excludedPlace raw = true
    · rw [if_pos h2] at h
      exact absurd h (by simp)
    · rw [if_neg h2] at h
      have hout : out = titleCleanup (removeFirstQ (truncateNZ (stripBracket raw))) :=
        (Option.some_injective _ h).symm
      have hsub : ((truncateNZ (stripBracket raw)).count '?') ≤ raw.count '?' :=
        ((truncateNZ_sublist _).trans (stripBracket_sublist raw)).count_le '?'
      have hno : '?' ∉ removeFirstQ (truncateNZ (stripBracket raw)) :=
        removeFirstQ_no_q _ (by omega)
      rw [hout]
      exact List.count_eq_zero.mpr (titleCleanup_no_q _ hno)

/-- C7 witness: the amended claim instantiated at the accepted input
`"Auckland?"`, which carries a single `?` and cleans to a result with
none. -/
theorem c7_placeCleanUp_removes_only_first_question_mark_witness :
    placeCleanUp "Auckland?".data = some "Auckland".data
    ∧ "Auckland".data.count '?' = 0 :=
  ⟨rfl, c7_placeCleanUp_removes_only_first_question_mark
    "Auckland?".data "Auckland".data rfl (by decide)⟩

theorem computeFrequency_snd_of_fst (pairs : List (Char × List Char)) :
    ∀ g, (computeFrequency pairs).1 = some g →
      (computeFrequency pairs).2 = decide (g ∈ infrequentList) := by
  unfold computeFrequency
  suffices h : ∀ (acc : Option (List Char) × Bool),
      (∀ g, acc.1 = some g → acc.2 = decide (g ∈ infrequentList)) →
      ∀ g, (pairs.foldl freqStep acc).1 = some g →
        (pairs.foldl freqStep acc).2 = decide (g ∈ infrequentList) by
    exact h (none, false) (by intro g hg; cases hg)
  induction pairs with
  | nil => intro acc hacc g hg; exact hacc g hg
  | cons hd tl ih =>
    intro acc hacc g
    show ((tl.foldl freqStep (freqStep acc hd)).1 = some g → _)
    apply ih
    intro g' hg'
    unfold freqStep at hg' ⊢
    by_cases hc : hd.1 = 'a'
    · rw [if_pos hc] at hg' ⊢
      cases hg'
      rfl
    · rw [if_neg hc] at hg' ⊢
      exact hacc g' hg'

theorem processMarcRecord_newspaper (idx : List (List Char × Nat))
    (pd : List (List Char × PlaceInfo)) (st : RunState) (r : MarcRecord)
    (f : List Char) (h6 : jsCharAt r.leader 6 = some 'a')
    (h7 : jsCharAt r.leader 7 = some 's') (h008 : r.field008 = some f)
    (hct : contTypeOf f = some 'n') :
    processMarcRecord idx pd st r
      = processNewspaperRecord idx pd
          { st with recordCounter := st.recordCounter + 1,
                    serialCounter := st.serialCounter + 1 } f r := by
  unfold processMarcRecord
  rw [if_pos ⟨h6, h7⟩, h008]
  dsimp only
  rw [if_pos hct]

theorem processNewspaperRecord_skip (idx : List (List Char × Nat))
    (pd : List (List Char × PlaceInfo)) (st : RunState) (f : List Char)
    (r : MarcRecord) (lbl : String)
    (hfl : firstTrueLabel (skipConditions
        (truthyStr (extract035 idx r.subf035).1)
        (parse300 r.subf300 (parse245 r.subf245).2).isMicroformResource
        (parse300 r.subf300 (parse245 r.subf245).2).isElectronicResource
        (computeFrequency r.subf310).2
        (truthyStr (computePlacename r.subf260))) = some lbl) :
    (processNewspaperRecord idx pd st f r).store = st.store
    ∧ (processNewspaperRecord idx pd st f r).writes = st.writes
    ∧ (processNewspaperRecord idx pd st f r).stats = addStats st.stats lbl := by
  unfold processNewspaperRecord
  dsimp only
  cases hctrl : (extract035 idx r.subf035).1 with
  | none =>
      rw [hctrl] at hfl
      simp only [truthyStr, skipConditions, firstTrueLabel, Bool.not_false, if_true,
        Option.some.injEq] at hfl
      subst hfl
      cases hid : (extract035 idx r.subf035).2 <;> simp
  | some ctrlv =>
      rw [hctrl] at hfl
      dsimp only
      by_cases hce : ctrlv = []
      · subst hce
        simp only [truthyStr, skipConditions, firstTrueLabel, decide_True,
          Bool.not_true, Bool.false_eq_true, if_false, if_true, Bool.not_false,
          Option.some.injEq] at hfl
        subst hfl
        rw [if_pos rfl]
        cases hid : (extract035 idx r.subf035).2 <;> simp
      · have htr : truthyStr (some ctrlv) = true := by
          simp [truthyStr, hce]
        rw [htr] at hfl
        simp only [skipConditions, firstTrueLabel, Bool.not_true, Bool.false_eq_true,
          if_false] at hfl
        rw [if_neg hce]
        by_cases hmi : (parse300 r.subf300 (parse245 r.subf245).2).isMicroformResource
        · rw [hmi] at hfl
          simp only [if_true, Option.some.injEq] at hfl
          subst hfl
          rw [if_pos hmi]
          cases hid : (extract035 idx r.subf035).2 <;> simp [hce]
        · rw [Bool.not_eq_true] at hmi
          rw [hmi] at hfl
          simp only [Bool.false_eq_true, if_false] at hfl
          rw [if_neg (by rw [hmi]; exact Bool.false_ne_true)]
          by_cases hel : (parse300 r.subf300 (parse245 r.subf245).2).isElectronicResource
          · rw [hel] at hfl
            simp only [if_true, Option.some.injEq] at hfl
            subst hfl
            rw [if_pos hel]
            cases hid : (extract035 idx r.subf035).2 <;> simp [hce]
          · rw [Bool.not_eq_true] at hel
            rw [hel] at hfl
            simp only [Bool.false_eq_true, if_false] at hfl
            rw [if_neg (by rw [hel]; exact Bool.false_ne_true)]
            by_cases hinf : (computeFrequency r.subf310).2
            · rw [hinf] at hfl
              simp only [if_true, Option.some.injEq] at hfl
              subst hfl
              rw [if_pos hinf]
              cases hid : (extract035 idx r.subf035).2 <;> simp [hce]
            · rw [Bool.not_eq_true] at hinf
              rw [hinf] at hfl
              simp only [Bool.false_eq_true, if_false] at hfl
              rw [if_neg (by rw [hinf]; exact Bool.false_ne_true)]
              by_cases hpl : computePlacename r.subf260 = none
                  ∨ computePlacename r.subf260 = some []
              · have htp : truthyStr (computePlacename r.subf260) = false := by
                  rcases hpl with h | h <;> rw [h] <;> simp [truthyStr]
                rw [htp] at hfl
                simp only [Bool.not_false, if_true, Option.some.injEq] at hfl
                subst hfl
                rw [if_pos hpl]
                cases hid : (extract035 idx r.subf035).2 <;> simp [hce]
              · have htp : truthyStr (computePlacename r.subf260) = true := by
                  cases hp : computePlacename r.subf260 with
                  | none => exact absurd (Or.inl hp) hpl
                  | some p =>
                      by_cases hpe : p = []
                      · exact absurd (Or.inr (by rw [hp, hpe])) hpl
                      · simp [truthyStr, hpe]
                rw [htp] at hfl
                simp only [Bool.not_true, Bool.false_eq_true, if_false] at hfl
                simp at hfl

theorem firstTrueLabel_skip_of_infreq (b1 b2 b3 b5 : Bool) :
    ∃ lbl ∈ skipLabels, firstTrueLabel (skipConditions b1 b2 b3 true b5) = some lbl := by
  cases b1 <;> cases b2 <;> cases b3 <;> cases b5 <;> decide

/-! ## Claim C4 -/

/-- C4: for every parsed newspaper record (serial leader, 008 continuing
resource type `n`), the classifier evaluates the five skip conditions in
source order with first match winning — (1) no truthy `(Nz)` control
number, (2) microform, (3) electronic, (4) infrequent after trimming,
(5) falsy cleaned placename — incrementing exactly the matched
condition's counter, with the five counters pairwise distinct, and a
skipped record performs no record-store write; in particular any record
whose frequency cleans to "Monthly" leaves the store and write log
untouched and lands in one of the five skip counters. -/
theorem c4_skip_cascade_first_match_wins :
    (∀ (idx : List (List Char × Nat)) (pd : List (List Char × PlaceInfo))
        (st : RunState) (r : MarcRecord) (f : List Char) (lbl : String),
        jsCharAt r.leader 6 = some 'a' → jsCharAt r.leader 7 = some 's' →
        r.field008 = some f → contTypeOf f = some 'n' →
        firstTrueLabel (skipConditions
            (truthyStr (extract035 idx r.subf035).1)
            (parse300 r.subf300 (parse245 r.subf245).2).isMicroformResource
            (parse300 r.subf300 (parse245 r.subf245).2).isElectronicResource
            (computeFrequency r.subf310).2
            (truthyStr (computePlacename r.subf260))) = some lbl →
        (processMarcRecord idx pd st r).store = st.store
        ∧ (processMarcRecord idx pd st r).writes = st.writes
        ∧ (processMarcRecord idx pd st r).stats = addStats st.stats lbl)
    ∧ skipLabels.Nodup
    ∧ (∀ (idx : List (List Char × Nat)) (pd : List (List Char × PlaceInfo))
        (st : RunState) (r : MarcRecord) (f : List Char),
        jsCharAt r.leader 6 = some 'a' → jsCharAt r.leader 7 = some 's' →
        r.field008 = some f → contTypeOf f = some 'n' →
        (computeFrequency r.subf310).1 = some "Monthly".data →
        (processMarcRecord idx pd st r).store = st.store
        ∧ (processMarcRecord idx pd st r).writes = st.writes
        ∧ ∃ lbl ∈ skipLabels,
            (processMarcRecord idx pd st r).stats = addStats st.stats lbl) := by
  refine ⟨?_, by decide, ?_⟩
  · intro idx pd st r f lbl h6 h7 h008 hct hfl
    rw [processMarcRecord_newspaper idx pd st r f h6 h7 h008 hct]
    exact processNewspaperRecord_skip idx pd _ f r lbl hfl
  · intro idx pd st r f h6 h7 h008 hct hfreq
    have hinf : (computeFrequency r.subf310).2 = true := by
      rw [computeFrequency_snd_of_fst r.subf310 "Monthly".data hfreq]
      decide
    obtain ⟨lbl, hmem, hfl⟩ := firstTrueLabel_skip_of_infreq
      (truthyStr (extract035 idx r.subf035).1)
      (parse300 r.subf300 (parse245 r.subf245).2).isMicroformResource
      (parse300 r.subf300 (parse245 r.subf245).2).isElectronicResource
      (truthyStr (computePlacename r.subf260))
    rw [← hinf] at hfl
    rw [processMarcRecord_newspaper idx pd st r f h6 h7 h008 hct]
    obtain ⟨ha, hb, hc⟩ := processNewspaperRecord_skip idx pd _ f r lbl hfl
    exact ⟨ha, hb, lbl, hmem, hc⟩

/-- C4 witness: a concrete record whose frequency trims to "Monthly" is
skipped under the infrequent counter, with no store change and no
write. -/
theorem c4_skip_cascade_first_match_wins_witness :
    (processMarcRecord [] [] (initialRunState [] 1) recMonthly).store = []
    ∧ (processMarcRecord [] [] (initialRunState [] 1) recMonthly).writes = []
    ∧ (processMarcRecord [] [] (initialRunState [] 1) recMonthly).stats
        = addStats [] "count-skipped-infrequent" := by
  have h := c4_skip_cascade_first_match_wins.1 [] [] (initialRunState [] 1)
    recMonthly "130403d19709999      n".data "count-skipped-infrequent"
    rfl rfl rfl rfl (by decide)
  exact h

theorem lookupA_append {α β : Type} [DecidableEq α] (m1 m2 : List (α × β)) (k : α) :
    lookupA (m1 ++ m2) k
      = match lookupA m1 k with
        | some v => some v
        | none => lookupA m2 k := by
  induction m1 with
  | nil => simp [lookupA]
  | cons hd tl ih =>
    obtain ⟨k1, v1⟩ := hd
    by_cases h : k1 = k
    · simp [lookupA, h]
    · simp only [List.cons_append, lookupA, if_neg h]
      exact ih

theorem lookupA_addStats_self (stats : List (String × Nat)) (l : String) :
    lookupA (addStats stats l) l = some ((lookupA stats l).getD 0 + 1) := by
  unfold addStats
  cases h : lookupA stats l with
  | some n => rw [lookupA_setAssoc_self]; rfl
  | none => rw [lookupA_append, h]; simp [lookupA]

theorem lookupA_addStats_ne (stats : List (String × Nat)) (l l' : String) (h : l ≠ l') :
    lookupA (addStats stats l) l' = lookupA stats l' := by
  unfold addStats
  cases hl : lookupA stats l with
  | some n => exact lookupA_setAssoc_ne stats l l' (n + 1) h
  | none =>
    rw [lookupA_append]
    cases hl' : lookupA stats l' with
    | some v => rfl
    | none => simp [lookupA, h]

theorem updateExistingNewspaper_fst (np : Newspaper) (d1 d2 : List Char) :
    (updateExistingNewspaper np d1 d2).1
      = { np with
          firstYear :=
            if np.firstYear ≠ d1 ∧ isNewDateMoreSpecific np.firstYear d1 then d1
            else np.firstYear,
          finalYear :=
            if np.finalYear ≠ d2 ∧ isNewDateMoreSpecific np.finalYear d2 then d2
            else np.finalYear,
          isCurrent :=
            ((if np.finalYear ≠ d2 ∧ isNewDateMoreSpecific np.finalYear d2 then d2
              else np.finalYear) = "9999".data) } := by
  unfold updateExistingNewspaper
  by_cases c1 : np.firstYear ≠ d1 ∧ isNewDateMoreSpecific np.firstYear d1 <;>
    [rw [if_pos c1, if_pos c1]; rw [if_neg c1, if_neg c1]] <;>
    dsimp only <;>
    (by_cases c2 : np.finalYear ≠ d2 ∧ isNewDateMoreSpecific np.finalYear d2 <;>
      [rw [if_pos c2, if_pos c2]; rw [if_neg c2, if_neg c2]] <;>
      dsimp only) <;>
    [skip; skip; skip; skip] <;>
    first
    | (by_cases c3 : np.isCurrent ≠ (d2 = "9999".data) <;>
        [rw [if_pos (by simpa using c3)]; rw [if_neg (by simpa using c3)]] <;>
        dsimp only <;>
        first
          | rfl
          | (push_neg at c3
             rw [show ("9999".data : List Char) = ['9', '9', '9', '9'] from rfl] at c3
             rw [← c3]))
    | (by_cases c3 : np.isCurrent ≠ (np.finalYear = "9999".data) <;>
        [rw [if_pos (by simpa using c3)]; rw [if_neg (by simpa using c3)]] <;>
        dsimp only <;>
        first
          | rfl
          | (push_neg at c3
             rw [show ("9999".data : List Char) = ['9', '9', '9', '9'] from rfl] at c3
             rw [← c3]))

theorem updateExistingNewspaper_snd (np : Newspaper) (d1 d2 : List Char) :
    (updateExistingNewspaper np d1 d2).2
      = decide ((np.firstYear ≠ d1 ∧ isNewDateMoreSpecific np.firstYear d1)
          ∨ (np.finalYear ≠ d2 ∧ isNewDateMoreSpecific np.finalYear d2)
          ∨ np.isCurrent
              ≠ ((if np.finalYear ≠ d2 ∧ isNewDateMoreSpecific np.finalYear d2 then d2
                  else np.finalYear) = "9999".data)) := by
  unfold updateExistingNewspaper
  by_cases c1 : np.firstYear ≠ d1 ∧ isNewDateMoreSpecific np.firstYear d1 <;>
    [rw [if_pos c1]; rw [if_neg c1]] <;>
    dsimp only <;>
    (by_cases c2 : np.finalYear ≠ d2 ∧ isNewDateMoreSpecific np.finalYear d2 <;>
      [rw [if_pos c2, if_pos c2]; rw [if_neg c2, if_neg c2]] <;>
      dsimp only) <;>
    [skip; skip; skip; skip] <;>
    first
    | (by_cases c3 : np.isCurrent ≠ (d2 = "9999".data) <;>
        [rw [if_pos (by simpa using c3)]; rw [if_neg (by simpa using c3)]] <;>
        simp [c1, c2, c3])
    | (by_cases c3 : np.isCurrent ≠ (np.finalYear = "9999".data) <;>
        [rw [if_pos (by simpa using c3)]; rw [if_neg (by simpa using c3)]] <;>
        simp [c1, c2, c3])

theorem matchedBranch_spec (st : RunState) (id : Nat) (d1 d2 : List Char)
    (np : Newspaper) (hnp : lookupA st.store id = some np) :
    matchedBranch st id d1 d2
      = if (np.firstYear ≠ d1 ∧ isNewDateMoreSpecific np.firstYear d1)
          ∨ (np.finalYear ≠ d2 ∧ isNewDateMoreSpecific np.finalYear d2)
          ∨ np.isCurrent
              ≠ ((if np.finalYear ≠ d2 ∧ isNewDateMoreSpecific np.finalYear d2 then d2
                  else np.finalYear) = "9999".data) then
          { st with
            stats := addStats (addStats st.stats "count-existing-record")
              "count-existing-record-updated",
            store := setAssoc st.store id ((updateExistingNewspaper np d1 d2).1),
            writes := st.writes ++ [(id, (updateExistingNewspaper np d1 d2).1)] }
        else { st with stats := addStats st.stats "count-existing-record" } := by
  unfold matchedBranch
  dsimp only
  rw [hnp]
  dsimp only
  rw [updateExistingNewspaper_snd]
  by_cases hf : (np.firstYear ≠ d1 ∧ isNewDateMoreSpecific np.firstYear d1)
      ∨ (np.finalYear ≠ d2 ∧ isNewDateMoreSpecific np.finalYear d2)
      ∨ np.isCurrent
          ≠ ((if np.finalYear ≠ d2 ∧ isNewDateMoreSpecific np.finalYear d2 then d2
              else np.finalYear) = "9999".data)
  · rw [if_pos (by simpa using hf), if_pos hf]
    rfl
  · rw [if_neg (by simpa using hf), if_neg hf]

theorem processMarcRecord_matched (idx : List (List Char × Nat))
    (pd : List (List Char × PlaceInfo)) (st : RunState) (r : MarcRecord)
    (f : List Char) (ctrlv : List Char) (id : Nat)
    (h6 : jsCharAt r.leader 6 = some 'a') (h7 : jsCharAt r.leader 7 = some 's')
    (h008 : r.field008 = some f) (hct : contTypeOf f = some 'n')
    (hctrl : (extract035 idx r.subf035).1 = some ctrlv) (hce : ctrlv ≠ [])
    (hmi : (parse300 r.subf300 (parse245 r.subf245).2).isMicroformResource = false)
    (hel : (parse300 r.subf300 (parse245 r.subf245).2).isElectronicResource = false)
    (hinf : (computeFrequency r.subf310).2 = false)
    (hpl : ¬(computePlacename r.subf260 = none ∨ computePlacename r.subf260 = some []))
    (hid : (extract035 idx r.subf035).2 = some id) :
    processMarcRecord idx pd st r
      = (fun m => { m with marcWrites := m.marcWrites ++ [id] })
          (matchedBranch
            { st with recordCounter := st.recordCounter + 1,
                      serialCounter := st.serialCounter + 1,
                      newspaperCounter := st.newspaperCounter + 1 }
            id (date1Of f) (date2Of f)) := by
  rw [processMarcRecord_newspaper idx pd st r f h6 h7 h008 hct]
  unfold processNewspaperRecord
  dsimp only
  rw [hctrl]
  dsimp only
  rw [if_neg hce, if_neg (by rw [hmi]; exact Bool.false_ne_true),
    if_neg (by rw [hel]; exact Bool.false_ne_true),
    if_neg (by rw [hinf]; exact Bool.false_ne_true), if_neg hpl, hid]
  dsimp only
  rw [if_pos hce]

/-! ## Claim C2 -/

/-- C2: for every parsed record that passes all skip checks and whose
control number resolves to an existing id, `firstYear` is overwritten by
`date1` exactly when it differs and the new date is more specific,
`finalYear` likewise by `date2`, `isCurrent` is recomputed from the
(possibly updated) `finalYear` being the sentinel `9999` and changes
exactly when it differed, a store write happens exactly when one of the
three fields changed, and the existing-record counter increments either
way. -/
theorem c2_matched_record_update_rules
    (idx : List (List Char × Nat)) (pd : List (List Char × PlaceInfo))
    (st : RunState) (r : MarcRecord) (f ctrlv : List Char) (id : Nat)
    (np np' : Newspaper) (fired : Prop)
    (h6 : jsCharAt r.leader 6 = some 'a') (h7 : jsCharAt r.leader 7 = some 's')
    (h008 : r.field008 = some f) (hct : contTypeOf f = some 'n')
    (hctrl : (extract035 idx r.subf035).1 = some ctrlv) (hce : ctrlv ≠ [])
    (hmi : (parse300 r.subf300 (parse245 r.subf245).2).isMicroformResource = false)
    (hel : (parse300 r.subf300 (parse245 r.subf245).2).isElectronicResource = false)
    (hinf : (computeFrequency r.subf310).2 = false)
    (hpl : ¬(computePlacename r.subf260 = none ∨ computePlacename r.subf260 = some []))
    (hid : (extract035 idx r.subf035).2 = some id)
    (hnp : lookupA st.store id = some np)
    (hnp' : np' = { np with
        firstYear :=
          if np.firstYear ≠ date1Of f ∧ isNewDateMoreSpecific np.firstYear (date1Of f)
          then date1Of f else np.firstYear,
        finalYear :=
          if np.finalYear ≠ date2Of f ∧ isNewDateMoreSpecific np.finalYear (date2Of f)
          then date2Of f else np.finalYear,
        isCurrent :=
          ((if np.finalYear ≠ date2Of f ∧ isNewDateMoreSpecific np.finalYear (date2Of f)
            then date2Of f else np.finalYear) = "9999".data) })
    (hfired : fired ↔
        ((np.firstYear ≠ date1Of f ∧ isNewDateMoreSpecific np.firstYear (date1Of f))
          ∨ (np.finalYear ≠ date2Of f ∧ isNewDateMoreSpecific np.finalYear (date2Of f))
          ∨ np.isCurrent
              ≠ ((if np.finalYear ≠ date2Of f ∧
                    isNewDateMoreSpecific np.finalYear (date2Of f)
                  then date2Of f else np.finalYear) = "9999".data))) :
    lookupA (processMarcRecord idx pd st r).store id = some np'
    ∧ (fired → (processMarcRecord idx pd st r).writes = st.writes ++ [(id, np')])
    ∧ (¬ fired → (processMarcRecord idx pd st r).writes = st.writes
        ∧ (processMarcRecord idx pd st r).store = st.store)
    ∧ getStat (processMarcRecord idx pd st r) "count-existing-record"
        = getStat st "count-existing-record" + 1 := by
  rw [processMarcRecord_matched idx pd st r f ctrlv id h6 h7 h008 hct hctrl hce
    hmi hel hinf hpl hid]
  rw [matchedBranch_spec
    { st with recordCounter := st.recordCounter + 1,
              serialCounter := st.serialCounter + 1,
              newspaperCounter := st.newspaperCounter + 1 }
    id (date1Of f) (date2Of f) np hnp]
  have hfst := updateExistingNewspaper_fst np (date1Of f) (date2Of f)
  by_cases hf : (np.firstYear ≠ date1Of f ∧ isNewDateMoreSpecific np.firstYear (date1Of f))
      ∨ (np.finalYear ≠ date2Of f ∧ isNewDateMoreSpecific np.finalYear (date2Of f))
      ∨ np.isCurrent
          ≠ ((if np.finalYear ≠ date2Of f ∧ isNewDateMoreSpecific np.finalYear (date2Of f)
              then date2Of f else np.finalYear) = "9999".data)
  · rw [if_pos hf]
    dsimp only
    refine ⟨?_, fun _ => ?_, fun hnf => absurd (hfired.mpr hf) hnf, ?_⟩
    · rw [lookupA_setAssoc_self, hfst, hnp']
    · rw [hfst, hnp']
    · show (lookupA (addStats (addStats st.stats "count-existing-record")
        "count-existing-record-updated") "count-existing-record").getD 0
        = (lookupA st.stats "count-existing-record").getD 0 + 1
      rw [lookupA_addStats_ne _ _ _ (by decide), lookupA_addStats_self]
      rfl
  · rw [if_neg hf]
    dsimp only
    have hforig := hf
    push_neg at hf
    obtain ⟨hf1, hf2, hf3⟩ := hf
    have h1' : ¬(np.firstYear ≠ date1Of f
        ∧ isNewDateMoreSpecific np.firstYear (date1Of f)) :=
      fun hh => (hf1 hh.1) hh.2
    have h2' : ¬(np.finalYear ≠ date2Of f
        ∧ isNewDateMoreSpecific np.finalYear (date2Of f)) :=
      fun hh => (hf2 hh.1) hh.2
    have heq : np' = np := by
      rw [hnp']
      simp only [if_neg h1', if_neg h2']
      rw [if_neg h2'] at hf3
      have hb : decide (np.finalYear = "9999".data) = np.isCurrent := by
        rw [← hf3]
      rw [hb]
    refine ⟨?_, fun hfr => absurd (hfired.mp hfr) hforig, fun _ => ⟨rfl, rfl⟩, ?_⟩
    · rw [heq]
      exact hnp
    · show (lookupA (addStats st.stats "count-existing-record")
        "count-existing-record").getD 0
        = (lookupA st.stats "count-existing-record").getD 0 + 1
      rw [lookupA_addStats_self]
      rfl

/-- C2 witness: a concrete matched record whose stored century-masked
first year is improved to the full year, with exactly one write and the
existing-record counter bumped. -/
theorem c2_matched_record_update_rules_witness :
    lookupA (processMarcRecord [("80".data, 1)] []
        (initialRunState [(1, npA)] 2) rec0).store 1
      = some { npA with firstYear := "1970".data }
    ∧ (processMarcRecord [("80".data, 1)] []
        (initialRunState [(1, npA)] 2) rec0).writes
      = [(1, { npA with firstYear := "1970".data })]
    ∧ getStat (processMarcRecord [("80".data, 1)] []
        (initialRunState [(1, npA)] 2) rec0) "count-existing-record" = 1 := by
  have h := c2_matched_record_update_rules [("80".data, 1)] []
    (initialRunState [(1, npA)] 2) rec0 "130403d19709999      n".data "80".data 1
    npA { npA with firstYear := "1970".data } True
    rfl rfl rfl rfl (by decide) (by decide) rfl rfl rfl (by decide) (by decide)
    rfl (by decide) (by decide)
  refine ⟨h.1, ?_, ?_⟩
  · have hw := h.2.1 trivial
    simpa using hw
  · rw [h.2.2.2]
    decide

/-! ## Claim C3 -/

/-- C3 counterexample: a record with type-of-date `d` and date2 `9999`
(control number unseen, all skip checks passed) is created with
`isCurrent = false`, although `date2 == "9999"` — the create path copies
`isCurrentlyPublished = (typeOfDate == 'c')`, it does not compute
`date2 == "9999"`. -/
theorem c3_counterexample_created_isCurrent_uses_typeOfDate :
    (lookupA c6run1.store 1).map Newspaper.isCurrent = some false
    ∧ (lookupA c6run1.store 1).map Newspaper.finalYear = some "9999".data
    ∧ date2Of "130403d19709999      n".data = "9999".data
    ∧ typeOfDateOf "130403d19709999      n".data = some 'd'
    ∧ getStat c6run1 "count-new-record" = 1 := by
  exact ⟨rfl, rfl, rfl, rfl, rfl⟩

/-- C3 amended: the created record has genre "Unknown", `isCurrent`
equal to `(typeOfDate == 'c')` (NOT `(date2 == "9999")`), and its
place triple from the place table entry for the cleaned placename, or
the literal fallback triple
`unknown`/`Unknown District`/`Unknown Region` when the place is not in
the table. -/
theorem c3_created_record_fields
    (idx : List (List Char × Nat)) (pd : List (List Char × PlaceInfo))
    (st : RunState) (r : MarcRecord) (f ctrlv pname : List Char)
    (newRec : Newspaper)
    (h6 : jsCharAt r.leader 6 = some 'a') (h7 : jsCharAt r.leader 7 = some 's')
    (h008 : r.field008 = some f) (hct : contTypeOf f = some 'n')
    (hctrl : (extract035 idx r.subf035).1 = some ctrlv) (hce : ctrlv ≠ [])
    (hmi : (parse300 r.subf300 (parse245 r.subf245).2).isMicroformResource = false)
    (hel : (parse300 r.subf300 (parse245 r.subf245).2).isElectronicResource = false)
    (hinf : (computeFrequency r.subf310).2 = false)
    (hpn : computePlacename r.subf260 = some pname) (hpe : pname ≠ [])
    (hid : (extract035 idx r.subf035).2 = none)
    (hrec : newRec = {
        id := st.nextId
        title := titleCleanup ((parse245 r.subf245).1.getD [])
        genre := "Unknown".data
        idMarcControlNumber := some ctrlv
        isCurrent := (typeOfDateOf f = some 'c')
        firstYear := date1Of f
        finalYear := date2Of f
        frequency :=
          match (computeFrequency r.subf310).1 with
          | some fr => if fr ≠ [] then some fr else none
          | none => none
        placename := some pname
        placecode := (((lookupA pd pname).map PlaceInfo.placecode).getD "unknown".data)
        district :=
          (((lookupA pd pname).map PlaceInfo.district).getD "Unknown District".data)
        region :=
          (((lookupA pd pname).map PlaceInfo.region).getD "Unknown Region".data) }) :
    lookupA (processMarcRecord idx pd st r).store st.nextId = some newRec
    ∧ (processMarcRecord idx pd st r).writes = st.writes ++ [(st.nextId, newRec)] := by
  rw [processMarcRecord_newspaper idx pd st r f h6 h7 h008 hct]
  unfold processNewspaperRecord
  dsimp only
  rw [hctrl]
  dsimp only
  rw [if_neg hce, if_neg (by rw [hmi]; exact Bool.false_ne_true),
    if_neg (by rw [hel]; exact Bool.false_ne_true),
    if_neg (by rw [hinf]; exact Bool.false_ne_true),
    if_neg (by rw [hpn]; simp [hpe]),
    hid]
  dsimp only
  rw [if_pos hce]
  unfold createBranch getNextNewspaperId writeNewspaper
  dsimp only
  rw [hpn]
  by_cases hdl : charListLt "130402".data (dateOnFileOf f) = true
  · rw [if_pos hdl]
    dsimp only
    rw [hrec, lookupA_setAssoc_self]
    exact ⟨rfl, rfl⟩
  · rw [if_neg hdl]
    dsimp only
    rw [hrec, lookupA_setAssoc_self]
    exact ⟨rfl, rfl⟩

/-- C3 witness: the amended create rule instantiated at a concrete
record whose place is absent from the place table: the created record
gets the literal fallback triple, genre "Unknown", and
`isCurrent = false` from its type-of-date `d`. -/
theorem c3_created_record_fields_witness :
    lookupA (processMarcRecord [] [] (initialRunState [] 1) rec0).store 1
      = some { id := 1, title := "T".data, genre := "Unknown".data,
               idMarcControlNumber := some "80".data, isCurrent := false,
               firstYear := "1970".data, finalYear := "9999".data,
               frequency := some "Daily".data, placename := some "Ak".data,
               placecode := "unknown".data, district := "Unknown District".data,
               region := "Unknown Region".data } := by
  have h := c3_created_record_fields [] [] (initialRunState [] 1) rec0
    "130403d19709999      n".data "80".data "Ak".data
    { id := 1, title := "T".data, genre := "Unknown".data,
      idMarcControlNumber := some "80".data, isCurrent := false,
      firstYear := "1970".data, finalYear := "9999".data,
      frequency := some "Daily".data, placename := some "Ak".data,
      placecode := "unknown".data, district := "Unknown District".data,
      region := "Unknown Region".data }
    rfl rfl rfl rfl (by decide) (by decide) rfl rfl rfl (by decide) (by decide)
    rfl (by decide)
  exact h.1

/-! ## Claim C5 -/

/-- C5 failing-input evaluation: the create branch never registers its
control number in `marcNumberToNewspaperId` (the code's own TODO at
part_000 line 268 notes the missing duplicate check), so a MARC input
with two records carrying the same unseen `(Nz)` number creates TWO
newspaper records claiming the number, and only the NEXT run's index
build detects the collision and aborts, naming both ids and titles. -/
theorem c5_create_does_not_register_control_number :
    (runOrEmpty (readMarcFile [] 1 [rec0, rec0])).store.map
        (fun p => p.2.idMarcControlNumber) = [some "80".data, some "80".data]
    ∧ getStat (runOrEmpty (readMarcFile [] 1 [rec0, rec0])) "count-new-record" = 2
    ∧ buildMarcIndex (runOrEmpty (readMarcFile [] 1 [rec0, rec0])).store
        = .error { marcNumber := "80".data, newId := 2, newTitle := "T".data,
                   newGenre := "Unknown".data, existingId := 1,
                   existingTitle := "T".data } := by
  exact ⟨rfl, rfl, rfl⟩

/-! ## Claim C6 -/

/-- C6 failing-input evaluation: running the reconciliation twice on the
single-record input `rec0` (type-of-date `d`, date2 `9999`) is not
idempotent: the first run creates the record with `isCurrent = false`,
and the second run — with unchanged input and the store the first run
produced — performs one update (recomputing `isCurrent` from
`finalYear == "9999"` to `true`), not zero. -/
theorem c6_second_run_performs_an_update :
    c6run1.writes.length = 1
    ∧ getStat c6run1 "count-new-record" = 1
    ∧ c6run2.writes.length = 1
    ∧ getStat c6run2 "count-existing-record-updated" = 1
    ∧ getStat c6run2 "count-new-record" = 0
    ∧ (lookupA c6run1.store 1).map Newspaper.isCurrent = some false
    ∧ (lookupA c6run2.store 1).map Newspaper.isCurrent = some true := by
  exact ⟨rfl, rfl, rfl, rfl, rfl, rfl, rfl⟩
